import Mathlib

/-!
Shallow embedding of `src/github-create-api.py`, a one-shot provisioning
script.  The script is a linear sequence of external invocations (curl, git)
gated by conditional checks.  We model the responses of the environment to those
invocations as a `World` record, and a run of the script as a pure function
from a `World` to the ordered trace of observable events together with the
final outcome (a `sys.exit` code, or a crash from an unhandled Python
exception).  Every definition is translated directly from the source.
-/

set_option maxRecDepth 8192

namespace GithubCreateApi

/-- Python considers these ASCII characters whitespace for `str.strip()`. -/
def isPySpace (c : Char) : Bool :=
  c = ' ' || c = '\t' || c = '\n' || c = '\r' || c = '\x0b' || c = '\x0c'

/-- Embedding of Python `str.strip()`: drop whitespace from both ends. -/
def pyStrip (s : String) : String :=
  String.mk (((s.data.dropWhile isPySpace).reverse.dropWhile isPySpace).reverse)

/-- Embedding of the Python substring test `pat in s` on character lists. -/
def listContainsSub (pat : List Char) : List Char → Bool
  | [] => pat.isEmpty
  | l@(_ :: rest) => pat.isPrefixOf l || listContainsSub pat rest

/-- `strContains s pat` is the Python substring test `pat in s` on strings. -/
def strContains (s pat : String) : Bool := listContainsSub pat.data s.data

/-- The JSON dictionary passed to `json.dumps` for the repository-creation
POST body (source lines 56-65). -/
structure RepoPayload where
  name : String
  description : String
  homepage : String
  «private» : Bool
  has_issues : Bool
  has_projects : Bool
  has_wiki : Bool
  auto_init : Bool
deriving DecidableEq

/-- Source line 46: `repo_name = "review-insights-platform"`. -/
def repo_name : String := "review-insights-platform"

/-- The payload built inside `create_repo_cmd` (source lines 56-65),
parameterised by the entered (stripped) username. -/
def repoPayload (username : String) : RepoPayload :=
  { name := repo_name
    description := "AI-powered review management platform with zero-config setup"
    homepage := "https://" ++ username ++ ".github.io/" ++ repo_name ++ "/"
    «private» := false
    has_issues := true
    has_projects := true
    has_wiki := false
    auto_init := false }

/-- The fixed topic list sent in the topics PUT body (source line 117). -/
def topicNames : List String :=
  ["ai", "review-management", "saas", "typescript", "nextjs",
   "sentiment-analysis", "zero-config"]

/-- The fixed absolute path of the `os.chdir` at source line 143. -/
def chdirPath : String := "/home/david/review-analysis-saas"

/-- Observable events of a run, in program order. -/
inductive Ev
  /-- the `os.chdir` call in the `__main__` block -/
  | chdir (path : String)
  /-- the `curl --version` capability check (not a network call) -/
  | checkCurl
  /-- a `print(...)` to standard output -/
  | print (s : String)
  /-- an `input(...)` prompt read from standard input -/
  | prompt (s : String)
  /-- the authenticated POST to the repository-creation endpoint -/
  | netCreatePost (payload : RepoPayload)
  /-- `git remote add origin <url>` -/
  | gitRemoteAdd (url : String)
  /-- `git push -u origin main` -/
  | gitPushMain
  /-- `git push origin gh-pages` -/
  | gitPushPages
  /-- the authenticated PUT to the repository topics endpoint -/
  | netTopicsPut (names : List String)
deriving DecidableEq

/-- How the process ends: `sys.exit code` / falling off the end of `main`
(`exited`), or an unhandled Python exception (`crashed`). -/
inductive Outcome
  | exited (code : Nat)
  | crashed
deriving DecidableEq

/-- The operating-system exit status of an outcome.  CPython terminates a
process with status 1 when an exception propagates out of `main`. -/
def Outcome.exitCode : Outcome → Nat
  | .exited c => c
  | .crashed => 1

/-- The environment a run interacts with: the two stdin lines, and the
results of each external invocation (return codes, captured output, and the
`json.loads` reading of the creation-response body).  `createJson = none`
means the body is empty, non-JSON or otherwise unparsable, so `json.loads`
raises; `createJson = some msg` means the body parses as a JSON object whose
`message` field is `msg` (`none` when the field is absent). -/
structure World where
  chdirOk : Bool
  curlOk : Bool
  usernameLine : String
  tokenLine : String
  createReturncode : Int
  createStdout : String
  createJson : Option (Option String)
  remoteAddReturncode : Int
  pushMainReturncode : Int
  pushMainStderr : String
  pushPagesReturncode : Int
  topicsReturncode : Int
deriving DecidableEq

/-- `print("=" * 50)`. -/
def eq50 : String := String.mk (List.replicate 50 '=')

/-- The block of informational prints at source lines 24-33. -/
def introPrints : List Ev :=
  [Ev.print "This script will create a GitHub repository using the GitHub API.",
   Ev.print "You\x27ll need a GitHub Personal Access Token with \x27repo\x27 scope.",
   Ev.print "",
   Ev.print "📝 How to get a token:",
   Ev.print "1. Go to: https://github.com/settings/tokens/new",
   Ev.print "2. Give it a name (e.g., \x27Review Insights Setup\x27)",
   Ev.print "3. Select scopes: ✓ repo (Full control of private repositories)",
   Ev.print "4. Click \x27Generate token\x27",
   Ev.print "5. Copy the token (you won\x27t see it again!)",
   Ev.print ""]

/-- Embedding of `main()` (source lines 12-140): the event trace and the
outcome, as a function of the environment `w`. -/
def main (w : World) : List Ev × Outcome :=
  let t := [Ev.print "🚀 Review Insights - GitHub Repository Creator",
            Ev.print eq50, Ev.print "", Ev.checkCurl]
  if !w.curlOk then
    (t ++ [Ev.print "❌ Error: curl is required but not installed"], .exited 1)
  else
    let t := t ++ introPrints ++ [Ev.prompt "GitHub username: "]
    let username := pyStrip w.usernameLine
    if username = "" then
      (t ++ [Ev.print "❌ Username is required!"], .exited 1)
    else
      let t := t ++ [Ev.prompt "GitHub Personal Access Token: "]
      let token := pyStrip w.tokenLine
      if token = "" then
        (t ++ [Ev.print "❌ Token is required!"], .exited 1)
      else
        let t := t ++
          [Ev.print ("\n✅ Creating repository: " ++ username ++ "/" ++ repo_name),
           Ev.print "\n📡 Creating repository...",
           Ev.netCreatePost (repoPayload username)]
        if w.createReturncode != 0 || strContains w.createStdout "\"message\"" then
          match w.createJson with
          | none => (t, .crashed)
          | some msg =>
            if msg = some "Bad credentials" then
              (t ++ [Ev.print "❌ Invalid token! Please check your Personal Access Token."],
               .exited 1)
            else if strContains (msg.getD "") "already exists" then
              (t ++ [Ev.print ("❌ Repository " ++ username ++ "/" ++ repo_name ++ " already exists!")],
               .exited 1)
            else
              (t ++ [Ev.print ("❌ Error: " ++ msg.getD "Unknown error")], .exited 1)
        else
          let repo_url := "https://github.com/" ++ username ++ "/" ++ repo_name ++ ".git"
          let t := t ++
            [Ev.print "✅ Repository created successfully!",
             Ev.print ("\n📤 Adding remote: " ++ repo_url),
             Ev.gitRemoteAdd repo_url,
             Ev.print "📤 Pushing main branch...",
             Ev.gitPushMain]
          if w.pushMainReturncode != 0 then
            (t ++ [Ev.print ("❌ Push failed: " ++ w.pushMainStderr),
                   Ev.print "\nTry running manually:",
                   Ev.print ("git remote set-url origin https://" ++ username ++ ":" ++ token
                             ++ "@github.com/" ++ username ++ "/" ++ repo_name ++ ".git"),
                   Ev.print "git push -u origin main"],
             .exited 1)
          else
            (t ++ [Ev.print "✅ Main branch pushed!",
                   Ev.print "📤 Pushing gh-pages branch...",
                   Ev.gitPushPages,
                   Ev.print "✅ GitHub Pages branch pushed!",
                   Ev.print "\n🏷️  Adding repository topics...",
                   Ev.netTopicsPut topicNames,
                   Ev.print "✅ Topics added!",
                   Ev.print ("\n" ++ eq50),
                   Ev.print "🎉 SUCCESS! Your repository is now live!",
                   Ev.print eq50,
                   Ev.print "",
                   Ev.print ("📁 Repository: https://github.com/" ++ username ++ "/" ++ repo_name),
                   Ev.print ("📄 Deploy Page: https://" ++ username ++ ".github.io/" ++ repo_name ++ "/"),
                   Ev.print "",
                   Ev.print "📋 Next steps:",
                   Ev.print ("1. Enable GitHub Pages: https://github.com/" ++ username ++ "/" ++ repo_name ++ "/settings/pages"),
                   Ev.print "   - Source: Deploy from branch",
                   Ev.print "   - Branch: gh-pages → /docs",
                   Ev.print "",
                   Ev.print "🚀 Deploy buttons:",
                   Ev.print ("Railway: https://railway.app/new/template?template=https://github.com/" ++ username ++ "/" ++ repo_name),
                   Ev.print ("Render: https://render.com/deploy?repo=https://github.com/" ++ username ++ "/" ++ repo_name),
                   Ev.print ("Vercel: https://vercel.com/new/clone?repository-url=https://github.com/" ++ username ++ "/" ++ repo_name),
                   Ev.print "",
                   Ev.print "✨ Your Review Insights platform is ready to share!"],
             .exited 0)

/-- Embedding of the `__main__` block (source lines 142-144): `os.chdir` to
the fixed path, then `main()`.  A failing `chdir` (missing directory) raises
before `main` runs. -/
def program (w : World) : List Ev × Outcome :=
  if w.chdirOk then
    let r := main w
    (Ev.chdir chdirPath :: r.1, r.2)
  else
    ([Ev.chdir chdirPath], .crashed)

/-- The creation response counts as a failure exactly when curl exited
non-zero or the body contains the error indicator (source line 71). -/
def createFailed (w : World) : Bool :=
  w.createReturncode != 0 || strContains w.createStdout "\"message\""

/-- The run gets as far as issuing the repository-creation POST: chdir
succeeded, curl is present, and both credentials are non-blank. -/
def reachesCreate (w : World) : Bool :=
  w.chdirOk && w.curlOk && !(pyStrip w.usernameLine == "") && !(pyStrip w.tokenLine == "")

/-- Full success in the sense of the spec: the run reaches creation, the
creation response is a success, and the default-branch push exits 0. -/
def fullSuccess (w : World) : Bool :=
  reachesCreate w && !createFailed w && w.pushMainReturncode == 0

/-- The two authenticated API invocations are the only network calls. -/
def isNetworkCall : Ev → Bool
  | .netCreatePost _ => true
  | .netTopicsPut _ => true
  | _ => false

/-- The network calls of a trace, in order. -/
def netCalls (t : List Ev) : List Ev := t.filter isNetworkCall

/-- Selects the repository-creation POST events of a trace. -/
def isCreatePost : Ev → Bool
  | .netCreatePost _ => true
  | _ => false

/-- Selects the topics PUT events of a trace. -/
def isTopicsPut : Ev → Bool
  | .netTopicsPut _ => true
  | _ => false

/-- Selects the `git remote add` events of a trace. -/
def isRemoteAdd : Ev → Bool
  | .gitRemoteAdd _ => true
  | _ => false

/-- No topics PUT occurs before the first `git push -u origin main`. -/
def noTopicsBeforePush : List Ev → Bool
  | [] => true
  | .netTopicsPut _ :: _ => false
  | .gitPushMain :: _ => true
  | _ :: rest => noTopicsBeforePush rest

/-- One of the three classified user-facing failure messages for the
creation step, for the given (stripped) username: invalid credentials,
already-exists, or the generic error banner. -/
def classifiedMsg (username : String) (s : String) : Prop :=
  s = "❌ Invalid token! Please check your Personal Access Token." ∨
  s = "❌ Repository " ++ username ++ "/" ++ repo_name ++ " already exists!" ∨
  ∃ m, s = "❌ Error: " ++ m

/-- `strStartsWith s pat` tests whether `pat` is a prefix of `s`. -/
def strStartsWith (s pat : String) : Bool := pat.data.isPrefixOf s.data

/-- Decidable version of `classifiedMsg` on events: the print of one of the
three classified creation-failure messages. -/
def isClassifiedErrEv (username : String) : Ev → Bool
  | .print s =>
      s == "❌ Invalid token! Please check your Personal Access Token." ||
      s == ("❌ Repository " ++ username ++ "/" ++ repo_name ++ " already exists!") ||
      strStartsWith s "❌ Error: "
  | _ => false

/-- A run achieving full success: curl present, credentials entered with
surrounding whitespace, creation response without error indicator, and all
git pushes succeeding. -/
def W1 : World :=
  { chdirOk := true, curlOk := true, usernameLine := " alice ", tokenLine := " tok123 ",
    createReturncode := 0, createStdout := "\x7b\"id\": 1\x7d", createJson := some none,
    remoteAddReturncode := 0, pushMainReturncode := 0, pushMainStderr := "",
    pushPagesReturncode := 0, topicsReturncode := 0 }

/-- A run whose username line is blank after stripping. -/
def W2 : World :=
  { chdirOk := true, curlOk := true, usernameLine := "   ", tokenLine := "tok",
    createReturncode := 0, createStdout := "", createJson := none,
    remoteAddReturncode := 0, pushMainReturncode := 0, pushMainStderr := "",
    pushPagesReturncode := 0, topicsReturncode := 0 }

/-- A run whose creation response reports bad credentials. -/
def W3 : World :=
  { chdirOk := true, curlOk := true, usernameLine := "alice", tokenLine := "badtok",
    createReturncode := 0, createStdout := "\x7b\"message\": \"Bad credentials\"\x7d",
    createJson := some (some "Bad credentials"),
    remoteAddReturncode := 0, pushMainReturncode := 0, pushMainStderr := "",
    pushPagesReturncode := 0, topicsReturncode := 0 }

/-- A run where curl itself fails and leaves an empty response body, so
`json.loads` raises on the failure branch. -/
def W4 : World :=
  { chdirOk := true, curlOk := true, usernameLine := "alice", tokenLine := "tok",
    createReturncode := 22, createStdout := "", createJson := none,
    remoteAddReturncode := 0, pushMainReturncode := 0, pushMainStderr := "",
    pushPagesReturncode := 0, topicsReturncode := 0 }

/-- A run whose creation response reports that the repository exists. -/
def W4b : World :=
  { chdirOk := true, curlOk := true, usernameLine := "alice", tokenLine := "tok",
    createReturncode := 0, createStdout := "\x7b\"message\": \"name already exists\"\x7d",
    createJson := some (some "name already exists"),
    remoteAddReturncode := 0, pushMainReturncode := 0, pushMainStderr := "",
    pushPagesReturncode := 0, topicsReturncode := 0 }

/-- A fully successful run (distinct credentials from `W1`). -/
def W5 : World :=
  { chdirOk := true, curlOk := true, usernameLine := "bob", tokenLine := "tk",
    createReturncode := 0, createStdout := "\x7b\x7d", createJson := some none,
    remoteAddReturncode := 0, pushMainReturncode := 0, pushMainStderr := "",
    pushPagesReturncode := 0, topicsReturncode := 0 }

/-- A run whose default-branch push fails. -/
def W6 : World :=
  { chdirOk := true, curlOk := true, usernameLine := "alice", tokenLine := "tok",
    createReturncode := 0, createStdout := "\x7b\x7d", createJson := some none,
    remoteAddReturncode := 0, pushMainReturncode := 128,
    pushMainStderr := "fatal: Authentication failed",
    pushPagesReturncode := 0, topicsReturncode := 0 }

/-- A fully successful run used for the summary claim. -/
def W7 : World :=
  { chdirOk := true, curlOk := true, usernameLine := "carol", tokenLine := "t0k",
    createReturncode := 0, createStdout := "\x7b\"id\": 7\x7d", createJson := some none,
    remoteAddReturncode := 0, pushMainReturncode := 0, pushMainStderr := "",
    pushPagesReturncode := 0, topicsReturncode := 0 }

/-- A fully successful run used for the topics-ordering claim. -/
def W8 : World :=
  { chdirOk := true, curlOk := true, usernameLine := "dave", tokenLine := "tk8",
    createReturncode := 0, createStdout := "\x7b\x7d", createJson := some none,
    remoteAddReturncode := 0, pushMainReturncode := 0, pushMainStderr := "",
    pushPagesReturncode := 0, topicsReturncode := 0 }

/-- A run with a missing curl binary. -/
def W9 : World :=
  { chdirOk := true, curlOk := false, usernameLine := "alice", tokenLine := "tok",
    createReturncode := 0, createStdout := "", createJson := none,
    remoteAddReturncode := 0, pushMainReturncode := 0, pushMainStderr := "",
    pushPagesReturncode := 0, topicsReturncode := 0 }

/-- A successful-creation run used for the success-criterion claim. -/
def W10 : World :=
  { chdirOk := true, curlOk := true, usernameLine := "erin", tokenLine := "tk10",
    createReturncode := 0, createStdout := "\x7b\"id\": 10\x7d", createJson := some none,
    remoteAddReturncode := 0, pushMainReturncode := 0, pushMainStderr := "",
    pushPagesReturncode := 0, topicsReturncode := 0 }

/-- The outcome of a run depends only on the chdir, curl, credential,
creation and primary-push results, through the stated decision tree. -/
theorem program_snd (w : World) :
    (program w).2 =
      if w.chdirOk then
        if !w.curlOk then .exited 1
        else if pyStrip w.usernameLine = "" then .exited 1
        else if pyStrip w.tokenLine = "" then .exited 1
        else if w.createReturncode != 0 || strContains w.createStdout "\"message\"" then
          (match w.createJson with
           | none => Outcome.crashed
           | some _ => Outcome.exited 1)
        else if w.pushMainReturncode != 0 then .exited 1
        else .exited 0
      else .crashed := by
  unfold program main
  split
  · dsimp only
    split
    · rfl
    · split
      · rfl
      · split
        · rfl
        · split
          · split <;> (try split) <;> (try split) <;> rfl
          · split
            · rfl
            · rfl
  · rfl

/-- Unfolding of `reachesCreate` into its four conditions. -/
theorem reachesCreate_iff (w : World) :
    reachesCreate w = true ↔
      w.chdirOk = true ∧ w.curlOk = true ∧
      pyStrip w.usernameLine ≠ "" ∧ pyStrip w.tokenLine ≠ "" := by
  simp [reachesCreate, and_assoc]

/-- Unfolding of `fullSuccess` into its three conditions. -/
theorem fullSuccess_iff (w : World) :
    fullSuccess w = true ↔
      reachesCreate w = true ∧ createFailed w = false ∧ w.pushMainReturncode = 0 := by
  simp [fullSuccess, and_assoc]

/-- The repository-creation POST events of a run: exactly one, with the
payload built from the stripped username, when the run reaches the creation
step; none otherwise. -/
theorem createPost_filter (w : World) :
    (program w).1.filter isCreatePost =
      if reachesCreate w = true then
        [Ev.netCreatePost (repoPayload (pyStrip w.usernameLine))]
      else [] := by
  unfold program main
  by_cases h1 : w.chdirOk = true <;>
    by_cases h2 : w.curlOk = true <;>
    by_cases h3 : pyStrip w.usernameLine = "" <;>
    by_cases h4 : pyStrip w.tokenLine = "" <;>
    rcases hj : w.createJson with _ | msg <;>
    by_cases h5 : w.createReturncode = 0 <;>
    by_cases h5b : strContains w.createStdout "\"message\"" = true <;>
    by_cases h6 : w.pushMainReturncode = 0 <;>
    simp [reachesCreate, h1, h2, h3, h4, h5, h5b, h6, hj, isCreatePost, introPrints,
      apply_ite (Prod.fst : List Ev × Outcome → List Ev),
      apply_ite (List.filter isCreatePost), ite_self]

/-- The topics PUT events of a run: exactly one, carrying the fixed topic
list, on full success; none otherwise. -/
theorem topicsPut_filter (w : World) :
    (program w).1.filter isTopicsPut =
      if fullSuccess w = true then [Ev.netTopicsPut topicNames] else [] := by
  unfold program main
  by_cases h1 : w.chdirOk = true <;>
    by_cases h2 : w.curlOk = true <;>
    by_cases h3 : pyStrip w.usernameLine = "" <;>
    by_cases h4 : pyStrip w.tokenLine = "" <;>
    rcases hj : w.createJson with _ | msg <;>
    by_cases h5 : w.createReturncode = 0 <;>
    by_cases h5b : strContains w.createStdout "\"message\"" = true <;>
    by_cases h6 : w.pushMainReturncode = 0 <;>
    simp [fullSuccess, reachesCreate, createFailed, h1, h2, h3, h4, h5, h5b, h6, hj,
      isTopicsPut, introPrints,
      apply_ite (Prod.fst : List Ev × Outcome → List Ev),
      apply_ite (List.filter isTopicsPut), ite_self]

/-- The `git remote add` events of a run: exactly one, pointing at the new
repository URL, when the creation step succeeds; none otherwise. -/
theorem remoteAdd_filter (w : World) :
    (program w).1.filter isRemoteAdd =
      if reachesCreate w = true ∧ createFailed w = false then
        [Ev.gitRemoteAdd ("https://github.com/" ++ pyStrip w.usernameLine ++ "/"
          ++ repo_name ++ ".git")]
      else [] := by
  unfold program main
  by_cases h1 : w.chdirOk = true <;>
    by_cases h2 : w.curlOk = true <;>
    by_cases h3 : pyStrip w.usernameLine = "" <;>
    by_cases h4 : pyStrip w.tokenLine = "" <;>
    rcases hj : w.createJson with _ | msg <;>
    by_cases h5 : w.createReturncode = 0 <;>
    by_cases h5b : strContains w.createStdout "\"message\"" = true <;>
    by_cases h6 : w.pushMainReturncode = 0 <;>
    simp [reachesCreate, createFailed, h1, h2, h3, h4, h5, h5b, h6, hj,
      isRemoteAdd, introPrints,
      apply_ite (Prod.fst : List Ev × Outcome → List Ev),
      apply_ite (List.filter isRemoteAdd), ite_self]

/-- In every run, no topics PUT happens before the primary-branch push. -/
theorem noTopicsBeforePush_true (w : World) :
    noTopicsBeforePush (program w).1 = true := by
  unfold program main
  by_cases h1 : w.chdirOk = true <;>
    by_cases h2 : w.curlOk = true <;>
    by_cases h3 : pyStrip w.usernameLine = "" <;>
    by_cases h4 : pyStrip w.tokenLine = "" <;>
    rcases hj : w.createJson with _ | msg <;>
    by_cases h5 : w.createReturncode = 0 <;>
    by_cases h5b : strContains w.createStdout "\"message\"" = true <;>
    by_cases h6 : w.pushMainReturncode = 0 <;>
    simp [h1, h2, h3, h4, h5, h5b, h6, hj, noTopicsBeforePush, introPrints,
      apply_ite (Prod.fst : List Ev × Outcome → List Ev),
      apply_ite noTopicsBeforePush, ite_self]

/-- C1: the exit code is 0 exactly on full success (creation response
successful, remote added, primary-branch push succeeding, reaching the end
of the workflow), every other run ends with OS exit status 1, and the
results of the best-effort steps (remote add, secondary-branch push, topic
tagging) never change the final outcome. -/
theorem exitCode_zero_iff_fullSuccess (w : World) :
    ((program w).2.exitCode = 0 ↔ fullSuccess w = true) ∧
    ((program w).2.exitCode = 0 ∨ (program w).2.exitCode = 1) ∧
    (∀ r p tc,
      (program { w with remoteAddReturncode := r, pushPagesReturncode := p,
                        topicsReturncode := tc }).2 = (program w).2) := by
  refine ⟨?_, ?_, ?_⟩
  · rw [program_snd, fullSuccess_iff, reachesCreate_iff]
    by_cases h1 : w.chdirOk = true <;> simp [h1, Outcome.exitCode]
    by_cases h2 : w.curlOk = true <;> simp [h2, Outcome.exitCode]
    by_cases h3 : pyStrip w.usernameLine = "" <;> simp [h3, Outcome.exitCode]
    by_cases h4 : pyStrip w.tokenLine = "" <;> simp [h4, Outcome.exitCode]
    rcases hj : w.createJson with _ | msg <;>
      by_cases h5 : w.createReturncode = 0 <;>
      by_cases h5b : strContains w.createStdout "\"message\"" = true <;>
      by_cases h6 : w.pushMainReturncode = 0 <;>
      simp [h5, h5b, h6, hj, createFailed, Outcome.exitCode]
  · rw [program_snd]
    by_cases h1 : w.chdirOk = true <;>
      by_cases h2 : w.curlOk = true <;>
      by_cases h3 : pyStrip w.usernameLine = "" <;>
      by_cases h4 : pyStrip w.tokenLine = "" <;>
      rcases hj : w.createJson with _ | msg <;>
      by_cases h5 : w.createReturncode = 0 <;>
      by_cases h5b : strContains w.createStdout "\"message\"" = true <;>
      by_cases h6 : w.pushMainReturncode = 0 <;>
      simp [h1, h2, h3, h4, h5, h5b, h6, hj, Outcome.exitCode]
  · intro r p tc
    rw [program_snd, program_snd]

/-- C1 witness: the characterisation evaluated at the concrete full-success
run `W1`. -/
theorem exitCode_zero_iff_fullSuccess_witness :
    ((program W1).2.exitCode = 0 ↔ fullSuccess W1 = true) ∧
    ((program W1).2.exitCode = 0 ∨ (program W1).2.exitCode = 1) ∧
    (∀ r p tc,
      (program { W1 with remoteAddReturncode := r, pushPagesReturncode := p,
                         topicsReturncode := tc }).2 = (program W1).2) :=
  exitCode_zero_iff_fullSuccess W1

/-- C2: a run whose username or token line is blank after stripping exits
with code 1 and issues no network call at all. -/
theorem blank_credentials_no_network (w : World)
    (h : pyStrip w.usernameLine = "" ∨ pyStrip w.tokenLine = "") :
    (program w).2.exitCode = 1 ∧ netCalls (program w).1 = [] := by
  rcases h with hu | ht
  · unfold program main
    by_cases h1 : w.chdirOk = true <;>
      by_cases h2 : w.curlOk = true <;>
      simp [h1, h2, hu, netCalls, isNetworkCall, introPrints, Outcome.exitCode]
  · unfold program main
    by_cases h1 : w.chdirOk = true <;>
      by_cases h2 : w.curlOk = true <;>
      by_cases h3 : pyStrip w.usernameLine = "" <;>
      simp [h1, h2, h3, ht, netCalls, isNetworkCall, introPrints, Outcome.exitCode]

/-- C2 witness: the blank-username run `W2` exits 1 with no network call. -/
theorem blank_credentials_no_network_witness :
    (pyStrip W2.usernameLine = "" ∨ pyStrip W2.tokenLine = "") ∧
    ((program W2).2.exitCode = 1 ∧ netCalls (program W2).1 = []) :=
  ⟨Or.inl (by decide), blank_credentials_no_network W2 (Or.inl (by decide))⟩

/-- C3: on the creation-failure branch with a parsed response, a message
equal to "Bad credentials" yields the invalid-credentials print, otherwise a
message containing "already exists" yields the already-exists print naming
username and repository, otherwise the generic error print carrying the
response message; each case exits 1. -/
theorem creation_failure_classification (w : World) (msg : Option String)
    (hre : reachesCreate w = true) (hf : createFailed w = true)
    (hj : w.createJson = some msg) :
    (program w).2 = .exited 1 ∧
    (msg = some "Bad credentials" →
      Ev.print "❌ Invalid token! Please check your Personal Access Token."
        ∈ (program w).1) ∧
    (msg ≠ some "Bad credentials" → strContains (msg.getD "") "already exists" = true →
      Ev.print ("❌ Repository " ++ pyStrip w.usernameLine ++ "/" ++ repo_name
        ++ " already exists!") ∈ (program w).1) ∧
    (msg ≠ some "Bad credentials" → strContains (msg.getD "") "already exists" = false →
      Ev.print ("❌ Error: " ++ msg.getD "Unknown error") ∈ (program w).1) := by
  obtain ⟨h1, h2, h3, h4⟩ := (reachesCreate_iff w).1 hre
  unfold createFailed at hf
  unfold program main
  by_cases hm1 : msg = some "Bad credentials" <;>
    by_cases hm2 : strContains (msg.getD "") "already exists" = true <;>
    simp [h1, h2, h3, h4, hf, hj, hm1, hm2, introPrints]

/-- C3 witness: the bad-credentials response of run `W3`. -/
theorem creation_failure_classification_witness :
    reachesCreate W3 = true ∧ createFailed W3 = true ∧
    W3.createJson = some (some "Bad credentials") ∧
    ((program W3).2 = .exited 1 ∧
     (some "Bad credentials" = some "Bad credentials" →
       Ev.print "❌ Invalid token! Please check your Personal Access Token."
         ∈ (program W3).1) ∧
     ((some "Bad credentials" : Option String) ≠ some "Bad credentials" →
       strContains ((some "Bad credentials" : Option String).getD "") "already exists" = true →
       Ev.print ("❌ Repository " ++ pyStrip W3.usernameLine ++ "/" ++ repo_name
         ++ " already exists!") ∈ (program W3).1) ∧
     ((some "Bad credentials" : Option String) ≠ some "Bad credentials" →
       strContains ((some "Bad credentials" : Option String).getD "") "already exists" = false →
       Ev.print ("❌ Error: " ++ (some "Bad credentials" : Option String).getD "Unknown error")
         ∈ (program W3).1)) :=
  ⟨by decide, by decide, by decide,
   creation_failure_classification W3 (some "Bad credentials")
     (by decide) (by decide) (by decide)⟩

/-- C4 counterexample: in run `W4` curl exits non-zero with an empty body,
so the failure branch is taken, yet the run crashes in `json.loads` and none
of the three classified messages is printed. -/
theorem malformed_response_no_classified_message :
    createFailed W4 = true ∧ (program W4).2 = .crashed ∧
    (program W4).1.filter (isClassifiedErrEv (pyStrip W4.usernameLine)) = [] := by
  refine ⟨by decide, by decide, by decide⟩

/-- C4 (amended): on the creation-failure branch, when the response body
parses as a JSON object the run prints one of the three classified messages
and exits 1; when the body is empty, non-JSON or malformed, `json.loads`
raises and the run aborts via an unhandled exception instead. -/
theorem creation_failure_classified_or_crash (w : World)
    (hre : reachesCreate w = true) (hf : createFailed w = true) :
    (∀ msg, w.createJson = some msg →
      (program w).2 = .exited 1 ∧
      ∃ s, classifiedMsg (pyStrip w.usernameLine) s ∧ Ev.print s ∈ (program w).1) ∧
    (w.createJson = none → (program w).2 = .crashed) := by
  obtain ⟨h1, h2, h3, h4⟩ := (reachesCreate_iff w).1 hre
  unfold createFailed at hf
  constructor
  · intro msg hj
    constructor
    · rw [program_snd]
      simp [h1, h2, h3, h4, hf, hj]
    · unfold program main
      by_cases hm1 : msg = some "Bad credentials"
      · refine ⟨"❌ Invalid token! Please check your Personal Access Token.",
          Or.inl rfl, ?_⟩
        simp [h1, h2, h3, h4, hf, hj, hm1, introPrints]
      · by_cases hm2 : strContains (msg.getD "") "already exists" = true
        · refine ⟨"❌ Repository " ++ pyStrip w.usernameLine ++ "/" ++ repo_name
            ++ " already exists!", Or.inr (Or.inl rfl), ?_⟩
          simp [h1, h2, h3, h4, hf, hj, hm1, hm2, introPrints]
        · refine ⟨"❌ Error: " ++ msg.getD "Unknown error",
            Or.inr (Or.inr ⟨msg.getD "Unknown error", rfl⟩), ?_⟩
          simp [h1, h2, h3, h4, hf, hj, hm1, hm2, introPrints]
  · intro hj
    rw [program_snd]
    simp [h1, h2, h3, h4, hf, hj]

/-- C4 witness: the amended claim evaluated at the already-exists response
of run `W4b`. -/
theorem creation_failure_classified_or_crash_witness :
    reachesCreate W4b = true ∧ createFailed W4b = true ∧
    ((∀ msg, W4b.createJson = some msg →
       (program W4b).2 = .exited 1 ∧
       ∃ s, classifiedMsg (pyStrip W4b.usernameLine) s ∧ Ev.print s ∈ (program W4b).1) ∧
     (W4b.createJson = none → (program W4b).2 = .crashed)) :=
  ⟨by decide, by decide,
   creation_failure_classified_or_crash W4b (by decide) (by decide)⟩

/-- C5: every run issues the repository-creation POST at most once; a run
that reaches the creation step issues it exactly once; and its body is the
fixed descriptor — the literal repository name, the fixed description, a
homepage derived from the username, public visibility, issues and projects
enabled, wiki and auto-init disabled. -/
theorem creation_payload_fixed (w : World) :
    ((program w).1.filter isCreatePost = [] ∨
     (program w).1.filter isCreatePost =
       [Ev.netCreatePost (repoPayload (pyStrip w.usernameLine))]) ∧
    (reachesCreate w = true →
      (program w).1.filter isCreatePost =
        [Ev.netCreatePost (repoPayload (pyStrip w.usernameLine))]) ∧
    repoPayload (pyStrip w.usernameLine) =
      { name := "review-insights-platform",
        description := "AI-powered review management platform with zero-config setup",
        homepage := "https://" ++ pyStrip w.usernameLine ++ ".github.io/"
          ++ "review-insights-platform" ++ "/",
        «private» := false, has_issues := true, has_projects := true,
        has_wiki := false, auto_init := false } := by
  refine ⟨?_, ?_, rfl⟩
  · rw [createPost_filter]
    by_cases hre : reachesCreate w = true <;> simp [hre]
  · intro hre
    rw [createPost_filter, if_pos hre]

/-- C5 witness: the creation POST of the full-success run `W5`. -/
theorem creation_payload_fixed_witness :
    ((program W5).1.filter isCreatePost = [] ∨
     (program W5).1.filter isCreatePost =
       [Ev.netCreatePost (repoPayload (pyStrip W5.usernameLine))]) ∧
    (reachesCreate W5 = true →
      (program W5).1.filter isCreatePost =
        [Ev.netCreatePost (repoPayload (pyStrip W5.usernameLine))]) ∧
    repoPayload (pyStrip W5.usernameLine) =
      { name := "review-insights-platform",
        description := "AI-powered review management platform with zero-config setup",
        homepage := "https://" ++ pyStrip W5.usernameLine ++ ".github.io/"
          ++ "review-insights-platform" ++ "/",
        «private» := false, has_issues := true, has_projects := true,
        has_wiki := false, auto_init := false } :=
  creation_payload_fixed W5

/-- C6: when the primary-branch push exits non-zero, the run prints the push
diagnostic, prints the manual-recovery command embedding the literal
username, token and repository name in the remote URL, exits 1, and never
issues the topics PUT. -/
theorem push_failure_recovery (w : World)
    (hre : reachesCreate w = true) (hcf : createFailed w = false)
    (hp : w.pushMainReturncode ≠ 0) :
    (program w).2 = .exited 1 ∧
    Ev.print ("❌ Push failed: " ++ w.pushMainStderr) ∈ (program w).1 ∧
    Ev.print ("git remote set-url origin https://" ++ pyStrip w.usernameLine ++ ":"
      ++ pyStrip w.tokenLine ++ "@github.com/" ++ pyStrip w.usernameLine ++ "/"
      ++ repo_name ++ ".git") ∈ (program w).1 ∧
    (program w).1.filter isTopicsPut = [] := by
  obtain ⟨h1, h2, h3, h4⟩ := (reachesCreate_iff w).1 hre
  have hcf' : (w.createReturncode != 0 || strContains w.createStdout "\"message\"") = false := by
    simpa [createFailed] using hcf
  unfold program main
  simp [h1, h2, h3, h4, hcf', hp, isTopicsPut, introPrints]

/-- C6 witness: the failing-push run `W6`. -/
theorem push_failure_recovery_witness :
    reachesCreate W6 = true ∧ createFailed W6 = false ∧ W6.pushMainReturncode ≠ 0 ∧
    ((program W6).2 = .exited 1 ∧
     Ev.print ("❌ Push failed: " ++ W6.pushMainStderr) ∈ (program W6).1 ∧
     Ev.print ("git remote set-url origin https://" ++ pyStrip W6.usernameLine ++ ":"
       ++ pyStrip W6.tokenLine ++ "@github.com/" ++ pyStrip W6.usernameLine ++ "/"
       ++ repo_name ++ ".git") ∈ (program W6).1 ∧
     (program W6).1.filter isTopicsPut = []) :=
  ⟨by decide, by decide, by decide,
   push_failure_recovery W6 (by decide) (by decide) (by decide)⟩

/-- C7: a fully successful run exits 0 and prints the summary containing the
repository URL and the pages URL built from the username and the fixed
repository name. -/
theorem full_success_summary (w : World) (h : fullSuccess w = true) :
    (program w).2 = .exited 0 ∧
    Ev.print ("📁 Repository: https://github.com/" ++ pyStrip w.usernameLine ++ "/"
      ++ repo_name) ∈ (program w).1 ∧
    Ev.print ("📄 Deploy Page: https://" ++ pyStrip w.usernameLine ++ ".github.io/"
      ++ repo_name ++ "/") ∈ (program w).1 := by
  obtain ⟨hre, hcf, hp⟩ := (fullSuccess_iff w).1 h
  obtain ⟨h1, h2, h3, h4⟩ := (reachesCreate_iff w).1 hre
  have hcf' : (w.createReturncode != 0 || strContains w.createStdout "\"message\"") = false := by
    simpa [createFailed] using hcf
  unfold program main
  simp [h1, h2, h3, h4, hcf', hp, introPrints]

/-- C7 witness: the full-success run `W7`. -/
theorem full_success_summary_witness :
    fullSuccess W7 = true ∧
    ((program W7).2 = .exited 0 ∧
     Ev.print ("📁 Repository: https://github.com/" ++ pyStrip W7.usernameLine ++ "/"
       ++ repo_name) ∈ (program W7).1 ∧
     Ev.print ("📄 Deploy Page: https://" ++ pyStrip W7.usernameLine ++ ".github.io/"
       ++ repo_name ++ "/") ∈ (program W7).1) :=
  ⟨by decide, full_success_summary W7 (by decide)⟩

/-- C8: in every run the topics PUT is sent at most once, never before the
primary-branch push, only when that push succeeded, and always with the
fixed ordered topic list; the creation POST is likewise issued at most once
(no network call is retried). -/
theorem topics_put_once_after_push (w : World) :
    ((program w).1.filter isTopicsPut).length ≤ 1 ∧
    ((program w).1.filter isCreatePost).length ≤ 1 ∧
    noTopicsBeforePush (program w).1 = true ∧
    ((program w).1.filter isTopicsPut = [] ∨
     ((program w).1.filter isTopicsPut = [Ev.netTopicsPut topicNames] ∧
      w.pushMainReturncode = 0)) := by
  refine ⟨?_, ?_, noTopicsBeforePush_true w, ?_⟩
  · rw [topicsPut_filter]
    by_cases h : fullSuccess w = true <;> simp [h]
  · rw [createPost_filter]
    by_cases h : reachesCreate w = true <;> simp [h]
  · rw [topicsPut_filter]
    by_cases h : fullSuccess w = true
    · exact Or.inr ⟨by simp [h], ((fullSuccess_iff w).1 h).2.2⟩
    · exact Or.inl (by simp [h])

/-- C9: the first event of every run is the switch of the working directory to
the fixed absolute path, before the capability check, the prompts and every
external invocation. -/
theorem chdir_first (w : World) :
    (program w).1.head? = some (Ev.chdir chdirPath) := by
  unfold program
  by_cases h : w.chdirOk = true <;> simp [h]

/-- C10: the creation step proceeds (the remote is added) exactly when curl
exited 0 and the body lacks the substring `"message"`; on that success path
the body is never parsed (the run is independent of the parse result); and
on the failure branch the body is parsed, crashing exactly when it is
malformed. -/
theorem creation_success_criterion (w : World) (hre : reachesCreate w = true) :
    ((program w).1.filter isRemoteAdd ≠ [] ↔ createFailed w = false) ∧
    (createFailed w = false → ∀ p, program { w with createJson := p } = program w) ∧
    (createFailed w = true → ((program w).2 = .crashed ↔ w.createJson = none)) := by
  refine ⟨?_, ?_, ?_⟩
  · rw [remoteAdd_filter]
    by_cases h : createFailed w = false
    · simp [h, hre]
    · have h' : createFailed w = true := by revert h; cases createFailed w <;> simp
      simp [h', hre]
  · intro hcf p
    obtain ⟨h1, h2, h3, h4⟩ := (reachesCreate_iff w).1 hre
    have hcf' : (w.createReturncode != 0 || strContains w.createStdout "\"message\"") = false := by
      simpa [createFailed] using hcf
    unfold program main
    simp [h1, h2, h3, h4, hcf']
  · intro hcf
    obtain ⟨h1, h2, h3, h4⟩ := (reachesCreate_iff w).1 hre
    unfold createFailed at hcf
    rw [program_snd]
    rcases hj : w.createJson with _ | msg <;> simp [h1, h2, h3, h4, hcf, hj]

/-- C10 witness: the success-criterion facts evaluated at run `W10`. -/
theorem creation_success_criterion_witness :
    reachesCreate W10 = true ∧
    (((program W10).1.filter isRemoteAdd ≠ [] ↔ createFailed W10 = false) ∧
     (createFailed W10 = false → ∀ p, program { W10 with createJson := p } = program W10) ∧
     (createFailed W10 = true → ((program W10).2 = .crashed ↔ W10.createJson = none))) :=
  ⟨by decide, creation_success_criterion W10 (by decide)⟩

end GithubCreateApi
